import Mathlib

/-!
Shallow embedding of `srt-protocol/src/pending_connection/hsv5.rs` (the HSV5
handshake "state machine" of media-io/srt-rs) together with the data model it
operates on.  The three entry points `gen_hsv5_response`,
`start_hsv5_initiation` and `StartedInitiator.finish_hsv5_initiation` are
translated line by line from the source.  Supporting types
(`ConnInitSettings`, the packet records, `CryptoManager`, `ConnectionSettings`
...) are declared in other modules of the repository and are modelled here
from the specification's data-model section.

Modelling conventions:
* `Duration` and `Instant` are modelled as `Nat` (an abstract count of time
  units); `Duration::max` becomes `max` on `Nat`.  The nondeterministic
  `Instant::now()` is passed in as an explicit `now` argument.
* `SocketAddr`, socket ids and sequence numbers are opaque numbers.
* Rust's `&mut ConnInitSettings` argument of `gen_hsv5_response` is modelled
  by returning the (possibly updated) settings next to the result.
* The `unimplemented!` aborts in the crypto-negotiation match are modelled as
  the `Except.error` component of the return type, carrying the panic message;
  every normal return of the Rust function is an `Except.ok`.
* The randomness consumed by `CryptoManager::new_random` is passed in as an
  explicit `freshKey` argument to `start_hsv5_initiation`.
-/

/-- Modelled from the spec: network address of a peer (opaque to this core). -/
abbrev SocketAddr := Nat

/-- Modelled from the spec: a socket identifier (opaque to this core). -/
abbrev SocketId := Nat

/-- Modelled from the spec: an initial sequence number (opaque to this core). -/
abbrev SeqNumber := Nat

/-- Modelled from the spec: a delivery latency, in abstract time units
(`Duration` in the source); `Duration::max` is `max`. -/
abbrev Duration := Nat

/-- Modelled from the spec: crypto configuration — key size and
passphrase-derived material (`CryptoOptions` in the repository's settings
module). -/
structure CryptoOptions where
  size : Nat
  passphrase : String
  deriving DecidableEq

/-- Modelled from the spec: local, caller-provided configuration for a
connection attempt (`ConnInitSettings`): local socket identifier, initial send
sequence number, desired send/receive delivery latency, optional crypto
configuration. -/
structure ConnInitSettings where
  local_sockid : SocketId
  starting_send_seqnum : SeqNumber
  send_latency : Duration
  recv_latency : Duration
  crypto : Option CryptoOptions
  deriving DecidableEq

/-- Modelled from the spec: the protocol version triple (`SrtVersion`). -/
structure SrtVersion where
  major : Nat
  minor : Nat
  patch : Nat
  deriving DecidableEq

/-- Modelled from the spec: the current protocol version constant. -/
def SrtVersion.CURRENT : SrtVersion := ⟨1, 4, 2⟩

/-- Modelled from the spec: the capability-flags bitmask type
(`SrtShakeFlags`), an opaque wire bitmask. -/
abbrev SrtShakeFlags := Nat

/-- Modelled from the spec: the supported-capability bitmask constant. -/
def SrtShakeFlags.SUPPORTED : SrtShakeFlags := 0x3f

/-- Modelled from the spec: the handshake extension sub-packet payload
(`SrtHandshake`): protocol sub-version, capability flags, send latency,
receive latency. -/
structure SrtHandshake where
  version : SrtVersion
  flags : SrtShakeFlags
  send_latency : Duration
  recv_latency : Duration
  deriving DecidableEq

/-- Modelled from the spec: key-exchange wire payload — a randomly generated
key wrapped under the shared passphrase-derived wrapping key.  Opaque to this
core beyond the wrap relationship, so it is modelled as the pair of the
wrapping passphrase and the wrapped key value. -/
structure KeyingMaterial where
  passphrase : String
  key : Nat
  deriving DecidableEq

/-- Modelled from the spec: an extension block carries exactly one of
handshake-request/response or key-exchange request/response
(`SrtControlPacket`, the variants this core touches). -/
inductive SrtControlPacket where
  | HandshakeRequest : SrtHandshake → SrtControlPacket
  | HandshakeResponse : SrtHandshake → SrtControlPacket
  | KeyManagerRequest : KeyingMaterial → SrtControlPacket
  | KeyManagerResponse : KeyingMaterial → SrtControlPacket
  deriving DecidableEq

/-- Modelled from the spec: the version-5 handshake payload (`HSV5Info`):
crypto key size in bytes (0 = none), optional embedded handshake sub-packet,
optional embedded key-exchange sub-packet, optional stream identifier. -/
structure HSV5Info where
  crypto_size : Nat
  ext_hs : Option SrtControlPacket
  ext_km : Option SrtControlPacket
  sid : Option String
  deriving DecidableEq

/-- Modelled from the spec: version-tagged handshake payload
(`HandshakeVSInfo`): a version-5 payload, or the legacy version-4 shape that
is carried only for diagnostics and never processed. -/
inductive HandshakeVSInfo where
  | V4 : HandshakeVSInfo
  | V5 : HSV5Info → HandshakeVSInfo
  deriving DecidableEq

/-- Modelled from the spec: the numeric protocol version of a payload tag. -/
def HandshakeVSInfo.version : HandshakeVSInfo → Nat
  | .V4 => 4
  | .V5 _ => 5

/-- Modelled from the spec: one parsed inbound handshake message
(`HandshakeControlInfo`): version-tagged payload, peer socket identifier,
peer initial sequence number. -/
structure HandshakeControlInfo where
  info : HandshakeVSInfo
  socket_id : SocketId
  init_seq_num : SeqNumber
  deriving DecidableEq

/-- Modelled from the spec: wire-visible responder rejection reasons
(`ServerRejectReason`); `Version` plus other codes of the fixed enumeration. -/
inductive ServerRejectReason where
  | Version : ServerRejectReason
  | Overload : ServerRejectReason
  | Unauthorized : ServerRejectReason
  deriving DecidableEq

/-- Modelled from the spec: core-protocol rejection reasons
(`CoreRejectReason`); `BadSecret` is the crypto unwrap failure. -/
inductive CoreRejectReason where
  | BadSecret : CoreRejectReason
  deriving DecidableEq

/-- Modelled from the spec: a wire-transmittable rejection reason
(`RejectReason`). -/
inductive RejectReason where
  | Core : CoreRejectReason → RejectReason
  | Server : ServerRejectReason → RejectReason
  | User : Nat → RejectReason
  deriving DecidableEq

/-- Modelled from the spec: a protocol rejection decision carrying the
wire reason that will be sent to the peer (`ConnectionReject::Rejecting`). -/
inductive ConnectionReject where
  | Rejecting : RejectReason → ConnectionReject
  deriving DecidableEq

/-- Modelled from the spec: local ("not handled") errors
(`ConnectError`, the variants this core produces). -/
inductive ConnectError where
  | ExpectedHSReq : ConnectError
  | ExpectedHSResp : ConnectError
  | ExpectedExtFlags : ConnectError
  | UnsupportedProtocolVersion : Nat → ConnectError
  deriving DecidableEq

/-- Modelled from the spec: the live symmetric key material of one connection
(`CryptoManager`): its configuration and the (opaque) key value. -/
structure CryptoManager where
  options : CryptoOptions
  key : Nat
  deriving DecidableEq

/-- Modelled from the spec: construct a crypto manager from a fresh random
key; the randomness is the explicit `freshKey` argument. -/
def CryptoManager.new_random (co : CryptoOptions) (freshKey : Nat) : CryptoManager :=
  ⟨co, freshKey⟩

/-- Modelled from the spec: reconstruct a crypto manager by unwrapping an
inbound key-exchange request; fails (a crypto rejection) when the request was
not wrapped under this configuration's passphrase. -/
def CryptoManager.new_from_kmreq (co : CryptoOptions) (km : KeyingMaterial) :
    Except ConnectionReject CryptoManager :=
  if km.passphrase = co.passphrase then
    Except.ok ⟨co, km.key⟩
  else
    Except.error (ConnectionReject.Rejecting (RejectReason.Core CoreRejectReason.BadSecret))

/-- Modelled from the spec: produce the key-exchange payload of a manager —
the key wrapped under the configured passphrase. -/
def CryptoManager.generate_km (cm : CryptoManager) : KeyingMaterial :=
  ⟨cm.options.passphrase, cm.key⟩

/-- Modelled from the spec: key length in bytes of the managed key. -/
def CryptoManager.key_length (cm : CryptoManager) : Nat :=
  cm.options.size

/-- Modelled from the spec: the finalized, immutable output of a successful
handshake (`ConnectionSettings`). -/
structure ConnectionSettings where
  remote : SocketAddr
  remote_sockid : SocketId
  local_sockid : SocketId
  socket_start_time : Nat
  init_send_seq_num : SeqNumber
  init_recv_seq_num : SeqNumber
  max_packet_size : Nat
  max_flow_size : Nat
  send_tsbpd_latency : Duration
  recv_tsbpd_latency : Duration
  crypto_manager : Option CryptoManager
  stream_id : Option String
  deriving DecidableEq

/-- Modelled from the spec: the acceptance descriptor returned by the
access-control collaborator, exposing a take-once optional crypto
configuration override (`AcceptParameters`). -/
structure AcceptParameters where
  cryptoOptions : Option CryptoOptions
  deriving DecidableEq

/-- Modelled from the spec: the access-control collaborator
(`StreamAcceptor::accept`): given the peer's stream identifier and address,
either an acceptance descriptor or a rejection reason. -/
def StreamAcceptor := Option String → SocketAddr → Except RejectReason AcceptParameters

/-- `GenHsv5Result` from the source: the three defined results of the
responder negotiation. -/
inductive GenHsv5Result where
  | Accept : HandshakeVSInfo → ConnectionSettings → GenHsv5Result
  | NotHandled : ConnectError → GenHsv5Result
  | Reject : ConnectionReject → GenHsv5Result
  deriving DecidableEq

/-- The in-place update `settings.crypto = Some(co)` performed from the
acceptance descriptor (source lines 44-47), factored out. -/
def apply_accept_params (settings : ConnInitSettings) (ap : AcceptParameters) :
    ConnInitSettings :=
  match ap.cryptoOptions with
  | some co => { settings with crypto := some co }
  | none => settings

/-- The crypto-negotiation match of `gen_hsv5_response` (source lines 56-73),
factored out: given the (possibly acceptor-updated) local crypto
configuration, the inbound key-exchange sub-packet and the advertised
`crypto_size`, produce either an abnormal termination (`Except.error`, the
`unimplemented!` aborts), an early protocol rejection (`Sum.inl`, the
`new_from_kmreq` failure), or the negotiated optional crypto manager
(`Sum.inr`). -/
def hsv5_crypto_negotiation (crypto : Option CryptoOptions)
    (ext_km : Option SrtControlPacket) (crypto_size : Nat) :
    Except String (ConnectionReject ⊕ Option CryptoManager) :=
  match crypto, ext_km with
  | some co, some (SrtControlPacket.KeyManagerRequest km) =>
      if co.size ≠ crypto_size then
        Except.error "Key size mismatch"
      else
        match CryptoManager.new_from_kmreq co km with
        | Except.ok cm => Except.ok (Sum.inr (some cm))
        | Except.error rr => Except.ok (Sum.inl rr)
  | none, none => Except.ok (Sum.inr none)
  | some _, some _ => Except.error "Expected kmreq"
  | some _, none => Except.error "Crypto mismatch"
  | none, some _ => Except.error "Crypto mismatch"

/-- `gen_hsv5_response` from the source.  The `&mut settings` argument is
returned next to the result; `Instant::now()` is the `now` argument; the
three `unimplemented!` aborts are the `Except.error` outcomes, carrying the
panic message. -/
def gen_hsv5_response (settings : ConnInitSettings) (with_hsv5 : HandshakeControlInfo)
    (from_ : SocketAddr) (acceptor : StreamAcceptor) (now : Nat) :
    Except String (ConnInitSettings × GenHsv5Result) :=
  match with_hsv5.info with
  | HandshakeVSInfo.V4 =>
      Except.ok (settings,
        GenHsv5Result.Reject (ConnectionReject.Rejecting
          (RejectReason.Server ServerRejectReason.Version)))
  | HandshakeVSInfo.V5 incoming =>
      match acceptor incoming.sid from_ with
      | Except.error rr =>
          Except.ok (settings, GenHsv5Result.Reject (ConnectionReject.Rejecting rr))
      | Except.ok accept_params =>
          let settings := apply_accept_params settings accept_params
          match incoming.ext_hs with
          | some (SrtControlPacket.HandshakeRequest hs) =>
              (hsv5_crypto_negotiation settings.crypto incoming.ext_km
                  incoming.crypto_size).bind fun
              | Sum.inl rr => Except.ok (settings, GenHsv5Result.Reject rr)
              | Sum.inr cm =>
                let outgoing_ext_km :=
                  match cm with
                  | some c => some c.generate_km
                  | none => none
                let sid :=
                  match with_hsv5.info with
                  | HandshakeVSInfo.V5 info => info.sid
                  | _ => none
                Except.ok (settings,
                  GenHsv5Result.Accept
                    (HandshakeVSInfo.V5
                      { crypto_size := (cm.map fun c => c.key_length).getD 0
                        ext_hs := some (SrtControlPacket.HandshakeResponse
                          { version := SrtVersion.CURRENT
                            flags := SrtShakeFlags.SUPPORTED
                            send_latency := settings.send_latency
                            recv_latency := settings.recv_latency })
                        ext_km := (match outgoing_ext_km with
                          | some km => some (SrtControlPacket.KeyManagerResponse km)
                          | none => none)
                        sid := sid })
                    { remote := from_
                      remote_sockid := with_hsv5.socket_id
                      local_sockid := settings.local_sockid
                      socket_start_time := now
                      init_send_seq_num := settings.starting_send_seqnum
                      init_recv_seq_num := with_hsv5.init_seq_num
                      max_packet_size := 1500
                      max_flow_size := 8192
                      send_tsbpd_latency := max settings.send_latency hs.recv_latency
                      recv_tsbpd_latency := max settings.recv_latency hs.send_latency
                      crypto_manager := cm
                      stream_id := incoming.sid })
          | some _ =>
              Except.ok (settings, GenHsv5Result.NotHandled ConnectError.ExpectedHSReq)
          | none =>
              Except.ok (settings, GenHsv5Result.NotHandled ConnectError.ExpectedExtFlags)

/-- `StartedInitiator` from the source: private pending-initiation state kept
between `start` and `finish` — the generated crypto manager (if any), the
original settings, the stream identifier. -/
structure StartedInitiator where
  cm : Option CryptoManager
  settings : ConnInitSettings
  streamid : Option String
  deriving DecidableEq

/-- `start_hsv5_initiation` from the source.  The randomness consumed by
`CryptoManager::new_random` is the explicit `freshKey` argument; the function
is total, mirroring the source's absence of a failure path. -/
def start_hsv5_initiation (settings : ConnInitSettings) (streamid : Option String)
    (freshKey : Nat) : HandshakeVSInfo × StartedInitiator :=
  let self_crypto_size := (settings.crypto.map fun co => co.size).getD 0
  let cmkm : Option CryptoManager × Option SrtControlPacket :=
    match settings.crypto with
    | some co =>
        let cm := CryptoManager.new_random co freshKey
        (some cm, some (SrtControlPacket.KeyManagerRequest cm.generate_km))
    | none => (none, none)
  (HandshakeVSInfo.V5
    { crypto_size := self_crypto_size
      ext_hs := some (SrtControlPacket.HandshakeRequest
        { version := SrtVersion.CURRENT
          flags := SrtShakeFlags.SUPPORTED
          send_latency := settings.send_latency
          recv_latency := settings.recv_latency })
      ext_km := cmkm.2
      sid := streamid },
   { cm := cmkm.1
     settings := settings
     streamid := streamid })

/-- `StartedInitiator::finish_hsv5_initiation` from the source.
`Instant::now()` is the `now` argument. -/
def StartedInitiator.finish_hsv5_initiation (self : StartedInitiator)
    (response : HandshakeControlInfo) (from_ : SocketAddr) (now : Nat) :
    Except ConnectError ConnectionSettings :=
  match response.info with
  | HandshakeVSInfo.V5 incoming =>
      match incoming.ext_hs with
      | some (SrtControlPacket.HandshakeResponse hs) =>
          Except.ok
            { remote := from_
              remote_sockid := response.socket_id
              local_sockid := self.settings.local_sockid
              socket_start_time := now
              init_send_seq_num := self.settings.starting_send_seqnum
              init_recv_seq_num := response.init_seq_num
              max_packet_size := 1500
              max_flow_size := 8192
              send_tsbpd_latency := max self.settings.send_latency hs.recv_latency
              recv_tsbpd_latency := max self.settings.recv_latency hs.send_latency
              crypto_manager := self.cm
              stream_id := self.streamid }
      | some _ => Except.error ConnectError.ExpectedHSResp
      | none => Except.error ConnectError.ExpectedExtFlags
  | i => Except.error (ConnectError.UnsupportedProtocolVersion i.version)

/-! ### Basic lemmas -/

theorem apply_accept_params_some (s : ConnInitSettings) (ap : AcceptParameters)
    (co : CryptoOptions) (h : ap.cryptoOptions = some co) :
    apply_accept_params s ap = { s with crypto := some co } := by
  simp only [apply_accept_params, h]

theorem apply_accept_params_none (s : ConnInitSettings) (ap : AcceptParameters)
    (h : ap.cryptoOptions = none) :
    apply_accept_params s ap = s := by
  simp only [apply_accept_params, h]

/-- C4: every inbound handshake message whose payload is not version-5-tagged
is rejected with reason `Version`, for all settings, acceptors and other
message fields; the acceptor is never consulted (the result does not depend
on it). -/
theorem c4_non_v5_rejected_with_version
    (settings : ConnInitSettings) (pkt : HandshakeControlInfo) (from_ : SocketAddr)
    (acceptor : StreamAcceptor) (now : Nat)
    (h : pkt.info = HandshakeVSInfo.V4) :
    gen_hsv5_response settings pkt from_ acceptor now =
      Except.ok (settings, GenHsv5Result.Reject (ConnectionReject.Rejecting
        (RejectReason.Server ServerRejectReason.Version))) := by
  simp only [gen_hsv5_response, h]

/-- Witness for C4 at a concrete input. -/
theorem c4_non_v5_rejected_with_version_witness :
    gen_hsv5_response ⟨1, 2, 3, 4, none⟩ ⟨HandshakeVSInfo.V4, 5, 6⟩ 7
        (fun _ _ => Except.ok ⟨none⟩) 0 =
      Except.ok ((⟨1, 2, 3, 4, none⟩ : ConnInitSettings),
        GenHsv5Result.Reject (ConnectionReject.Rejecting
          (RejectReason.Server ServerRejectReason.Version))) :=
  c4_non_v5_rejected_with_version _ _ _ _ _ rfl

/-- C5: on a version-5 message, a rejection reason from the access-control
collaborator is surfaced verbatim as the result; the settings are returned
unmodified and no crypto manager is constructed. -/
theorem c5_acceptor_reject_verbatim
    (settings : ConnInitSettings) (pkt : HandshakeControlInfo) (from_ : SocketAddr)
    (acceptor : StreamAcceptor) (now : Nat) (inc : HSV5Info) (rr : RejectReason)
    (hinfo : pkt.info = HandshakeVSInfo.V5 inc)
    (hacc : acceptor inc.sid from_ = Except.error rr) :
    gen_hsv5_response settings pkt from_ acceptor now =
      Except.ok (settings, GenHsv5Result.Reject (ConnectionReject.Rejecting rr)) := by
  simp only [gen_hsv5_response, hinfo, hacc]

/-- Witness for C5 at a concrete input. -/
theorem c5_acceptor_reject_verbatim_witness :
    gen_hsv5_response ⟨1, 2, 3, 4, none⟩
        ⟨HandshakeVSInfo.V5 ⟨16, none, none, some "x"⟩, 5, 6⟩ 7
        (fun _ _ => Except.error (RejectReason.User 42)) 0 =
      Except.ok ((⟨1, 2, 3, 4, none⟩ : ConnInitSettings),
        GenHsv5Result.Reject (ConnectionReject.Rejecting (RejectReason.User 42))) :=
  c5_acceptor_reject_verbatim _ _ _ _ _ _ _ rfl rfl

/-- C6: on an accepted version-5 message, a missing embedded handshake
sub-packet yields `NotHandled ExpectedExtFlags` and a present sub-packet of
the wrong shape yields `NotHandled ExpectedHSReq`; neither case is a
`Reject`. -/
theorem c6_missing_or_wrong_ext_hs_not_handled
    (settings : ConnInitSettings) (pkt : HandshakeControlInfo) (from_ : SocketAddr)
    (acceptor : StreamAcceptor) (now : Nat) (inc : HSV5Info) (ap : AcceptParameters)
    (hinfo : pkt.info = HandshakeVSInfo.V5 inc)
    (hacc : acceptor inc.sid from_ = Except.ok ap) :
    (inc.ext_hs = none →
      gen_hsv5_response settings pkt from_ acceptor now =
        Except.ok (apply_accept_params settings ap,
          GenHsv5Result.NotHandled ConnectError.ExpectedExtFlags)) ∧
    (∀ p, inc.ext_hs = some p → (∀ hs, p ≠ SrtControlPacket.HandshakeRequest hs) →
      gen_hsv5_response settings pkt from_ acceptor now =
        Except.ok (apply_accept_params settings ap,
          GenHsv5Result.NotHandled ConnectError.ExpectedHSReq)) := by
  constructor
  · intro hext
    simp only [gen_hsv5_response, hinfo, hacc, hext]
  · intro p hext hshape
    cases p with
    | HandshakeRequest hs => exact absurd rfl (hshape hs)
    | HandshakeResponse hs => simp only [gen_hsv5_response, hinfo, hacc, hext]
    | KeyManagerRequest km => simp only [gen_hsv5_response, hinfo, hacc, hext]
    | KeyManagerResponse km => simp only [gen_hsv5_response, hinfo, hacc, hext]

/-- Witness for C6 at a concrete input (absent sub-packet case). -/
theorem c6_missing_or_wrong_ext_hs_not_handled_witness :
    gen_hsv5_response ⟨1, 2, 3, 4, none⟩
        ⟨HandshakeVSInfo.V5 ⟨0, none, none, none⟩, 5, 6⟩ 7
        (fun _ _ => Except.ok ⟨none⟩) 0 =
      Except.ok (apply_accept_params ⟨1, 2, 3, 4, none⟩ ⟨none⟩,
        GenHsv5Result.NotHandled ConnectError.ExpectedExtFlags) :=
  (c6_missing_or_wrong_ext_hs_not_handled _ _ _ _ _ _ _ rfl rfl).1 rfl

/-- C10: when the acceptance descriptor carries crypto options and the
embedded handshake sub-packet is missing, `gen_hsv5_response` returns
`NotHandled` with the caller's settings already overwritten with the
descriptor's crypto options: the settings mutation survives the error
return. -/
theorem c10_settings_mutated_on_not_handled
    (settings : ConnInitSettings) (pkt : HandshakeControlInfo) (from_ : SocketAddr)
    (acceptor : StreamAcceptor) (now : Nat) (inc : HSV5Info) (ap : AcceptParameters)
    (co : CryptoOptions)
    (hinfo : pkt.info = HandshakeVSInfo.V5 inc)
    (hacc : acceptor inc.sid from_ = Except.ok ap)
    (hco : ap.cryptoOptions = some co)
    (hext : inc.ext_hs = none) :
    gen_hsv5_response settings pkt from_ acceptor now =
      Except.ok ({ settings with crypto := some co },
        GenHsv5Result.NotHandled ConnectError.ExpectedExtFlags) := by
  simp only [gen_hsv5_response, hinfo, hacc, hext, apply_accept_params, hco]

/-- Witness for C10 at a concrete input where the original settings had no
crypto configured, so the returned settings are genuinely mutated. -/
theorem c10_settings_mutated_on_not_handled_witness :
    gen_hsv5_response ⟨1, 2, 3, 4, none⟩
        ⟨HandshakeVSInfo.V5 ⟨0, none, none, none⟩, 5, 6⟩ 7
        (fun _ _ => Except.ok ⟨some ⟨16, "pw"⟩⟩) 0 =
      Except.ok ((⟨1, 2, 3, 4, some ⟨16, "pw"⟩⟩ : ConnInitSettings),
        GenHsv5Result.NotHandled ConnectError.ExpectedExtFlags) :=
  c10_settings_mutated_on_not_handled _ _ _ _ _ _ _ _ rfl rfl rfl rfl

/-- Inversion for the initiator's finish: a successful finish forces a
version-5 response with a handshake-response sub-packet, and determines every
field of the finalized settings. -/
theorem finish_hsv5_ok_inv (self : StartedInitiator) (response : HandshakeControlInfo)
    (from_ : SocketAddr) (now : Nat) (conn : ConnectionSettings)
    (h : self.finish_hsv5_initiation response from_ now = Except.ok conn) :
    ∃ inc hs, response.info = HandshakeVSInfo.V5 inc ∧
      inc.ext_hs = some (SrtControlPacket.HandshakeResponse hs) ∧
      conn = { remote := from_
               remote_sockid := response.socket_id
               local_sockid := self.settings.local_sockid
               socket_start_time := now
               init_send_seq_num := self.settings.starting_send_seqnum
               init_recv_seq_num := response.init_seq_num
               max_packet_size := 1500
               max_flow_size := 8192
               send_tsbpd_latency := max self.settings.send_latency hs.recv_latency
               recv_tsbpd_latency := max self.settings.recv_latency hs.send_latency
               crypto_manager := self.cm
               stream_id := self.streamid } := by
  cases hinfo : response.info with
  | V4 =>
    have heq : self.finish_hsv5_initiation response from_ now =
        Except.error (ConnectError.UnsupportedProtocolVersion 4) := by
      simp only [StartedInitiator.finish_hsv5_initiation, hinfo, HandshakeVSInfo.version]
    rw [heq] at h
    exact Except.noConfusion h
  | V5 inc =>
    cases hext : inc.ext_hs with
    | none =>
      have heq : self.finish_hsv5_initiation response from_ now =
          Except.error ConnectError.ExpectedExtFlags := by
        simp only [StartedInitiator.finish_hsv5_initiation, hinfo, hext]
      rw [heq] at h
      exact Except.noConfusion h
    | some p =>
      cases p with
      | HandshakeResponse hs =>
        have heq : self.finish_hsv5_initiation response from_ now =
            Except.ok { remote := from_
                        remote_sockid := response.socket_id
                        local_sockid := self.settings.local_sockid
                        socket_start_time := now
                        init_send_seq_num := self.settings.starting_send_seqnum
                        init_recv_seq_num := response.init_seq_num
                        max_packet_size := 1500
                        max_flow_size := 8192
                        send_tsbpd_latency := max self.settings.send_latency hs.recv_latency
                        recv_tsbpd_latency := max self.settings.recv_latency hs.send_latency
                        crypto_manager := self.cm
                        stream_id := self.streamid } := by
          simp only [StartedInitiator.finish_hsv5_initiation, hinfo, hext]
        rw [heq] at h
        injection h with h2
        exact ⟨inc, hs, rfl, hext, h2.symm⟩
      | HandshakeRequest hs =>
        have heq : self.finish_hsv5_initiation response from_ now =
            Except.error ConnectError.ExpectedHSResp := by
          simp only [StartedInitiator.finish_hsv5_initiation, hinfo, hext]
        rw [heq] at h
        exact Except.noConfusion h
      | KeyManagerRequest km =>
        have heq : self.finish_hsv5_initiation response from_ now =
            Except.error ConnectError.ExpectedHSResp := by
          simp only [StartedInitiator.finish_hsv5_initiation, hinfo, hext]
        rw [heq] at h
        exact Except.noConfusion h
      | KeyManagerResponse km =>
        have heq : self.finish_hsv5_initiation response from_ now =
            Except.error ConnectError.ExpectedHSResp := by
          simp only [StartedInitiator.finish_hsv5_initiation, hinfo, hext]
        rw [heq] at h
        exact Except.noConfusion h

/-- C7: `finish_hsv5_initiation` fails with `UnsupportedProtocolVersion`
(carrying the response's version) on a non-version-5 response, with
`ExpectedExtFlags` when the version-5 response lacks the embedded handshake
sub-packet, with `ExpectedHSResp` when that sub-packet has the wrong shape,
and succeeds exactly when the response is version-5 with a handshake-response
sub-packet. -/
theorem c7_finish_error_paths
    (self : StartedInitiator) (response : HandshakeControlInfo) (from_ : SocketAddr)
    (now : Nat) :
    (response.info = HandshakeVSInfo.V4 →
      self.finish_hsv5_initiation response from_ now =
        Except.error (ConnectError.UnsupportedProtocolVersion response.info.version)) ∧
    (∀ inc, response.info = HandshakeVSInfo.V5 inc → inc.ext_hs = none →
      self.finish_hsv5_initiation response from_ now =
        Except.error ConnectError.ExpectedExtFlags) ∧
    (∀ inc p, response.info = HandshakeVSInfo.V5 inc → inc.ext_hs = some p →
      (∀ hs, p ≠ SrtControlPacket.HandshakeResponse hs) →
      self.finish_hsv5_initiation response from_ now =
        Except.error ConnectError.ExpectedHSResp) ∧
    ((∃ conn, self.finish_hsv5_initiation response from_ now = Except.ok conn) ↔
      ∃ inc hs, response.info = HandshakeVSInfo.V5 inc ∧
        inc.ext_hs = some (SrtControlPacket.HandshakeResponse hs)) := by
  refine ⟨?_, ?_, ?_, ?_⟩
  · intro h
    simp only [StartedInitiator.finish_hsv5_initiation, h, HandshakeVSInfo.version]
  · intro inc hinfo hext
    simp only [StartedInitiator.finish_hsv5_initiation, hinfo, hext]
  · intro inc p hinfo hext hshape
    cases p with
    | HandshakeRequest hs =>
      simp only [StartedInitiator.finish_hsv5_initiation, hinfo, hext]
    | HandshakeResponse hs => exact absurd rfl (hshape hs)
    | KeyManagerRequest km =>
      simp only [StartedInitiator.finish_hsv5_initiation, hinfo, hext]
    | KeyManagerResponse km =>
      simp only [StartedInitiator.finish_hsv5_initiation, hinfo, hext]
  · constructor
    · rintro ⟨conn, hok⟩
      obtain ⟨inc, hs, hinfo, hext, -⟩ := finish_hsv5_ok_inv _ _ _ _ _ hok
      exact ⟨inc, hs, hinfo, hext⟩
    · rintro ⟨inc, hs, hinfo, hext⟩
      refine ⟨{ remote := from_
                remote_sockid := response.socket_id
                local_sockid := self.settings.local_sockid
                socket_start_time := now
                init_send_seq_num := self.settings.starting_send_seqnum
                init_recv_seq_num := response.init_seq_num
                max_packet_size := 1500
                max_flow_size := 8192
                send_tsbpd_latency := max self.settings.send_latency hs.recv_latency
                recv_tsbpd_latency := max self.settings.recv_latency hs.send_latency
                crypto_manager := self.cm
                stream_id := self.streamid }, ?_⟩
      simp only [StartedInitiator.finish_hsv5_initiation, hinfo, hext]

/-- Witness for C7 at a concrete input (non-version-5 response rejected with
the response's version). -/
theorem c7_finish_error_paths_witness :
    StartedInitiator.finish_hsv5_initiation ⟨none, ⟨1, 2, 3, 4, none⟩, none⟩
        ⟨HandshakeVSInfo.V4, 5, 6⟩ 7 0 =
      Except.error (ConnectError.UnsupportedProtocolVersion 4) :=
  (c7_finish_error_paths ⟨none, ⟨1, 2, 3, 4, none⟩, none⟩
    ⟨HandshakeVSInfo.V4, 5, 6⟩ 7 0).1 rfl

/-- C9: for every token and every version-5 response carrying a
handshake-response sub-packet — whatever its `ext_km` and `crypto_size`
fields — `finish_hsv5_initiation` succeeds, and the finalized settings carry
exactly the crypto manager retained in the token. -/
theorem c9_finish_ok_keeps_token_crypto
    (self : StartedInitiator) (response : HandshakeControlInfo) (from_ : SocketAddr)
    (now : Nat) (inc : HSV5Info) (hs : SrtHandshake)
    (hinfo : response.info = HandshakeVSInfo.V5 inc)
    (hext : inc.ext_hs = some (SrtControlPacket.HandshakeResponse hs)) :
    ∃ conn, self.finish_hsv5_initiation response from_ now = Except.ok conn ∧
      conn.crypto_manager = self.cm := by
  refine ⟨{ remote := from_
            remote_sockid := response.socket_id
            local_sockid := self.settings.local_sockid
            socket_start_time := now
            init_send_seq_num := self.settings.starting_send_seqnum
            init_recv_seq_num := response.init_seq_num
            max_packet_size := 1500
            max_flow_size := 8192
            send_tsbpd_latency := max self.settings.send_latency hs.recv_latency
            recv_tsbpd_latency := max self.settings.recv_latency hs.send_latency
            crypto_manager := self.cm
            stream_id := self.streamid }, ?_, rfl⟩
  simp only [StartedInitiator.finish_hsv5_initiation, hinfo, hext]

/-- Witness for C9 at a concrete input with a crypto manager in the token and
a response advertising an unrelated `ext_km` and `crypto_size`. -/
theorem c9_finish_ok_keeps_token_crypto_witness :
    ∃ conn,
      StartedInitiator.finish_hsv5_initiation
          ⟨some ⟨⟨16, "pw"⟩, 9⟩, ⟨1, 2, 3, 4, some ⟨16, "pw"⟩⟩, none⟩
          ⟨HandshakeVSInfo.V5 ⟨24, some (SrtControlPacket.HandshakeResponse
            ⟨SrtVersion.CURRENT, SrtShakeFlags.SUPPORTED, 10, 20⟩),
            some (SrtControlPacket.KeyManagerResponse ⟨"other", 0⟩), none⟩, 5, 6⟩ 7 0 =
        Except.ok conn ∧
      conn.crypto_manager = some ⟨⟨16, "pw"⟩, 9⟩ :=
  c9_finish_ok_keeps_token_crypto _ _ _ _ _ _ rfl rfl

/-- C8: `start_hsv5_initiation` is total (its result type has no failure
component) and: with crypto configured, the outbound payload carries the
configured key size and the key-exchange request of the freshly generated
crypto manager, which the token retains; without crypto, the payload has
`crypto_size = 0`, no key-exchange extension, and the token holds no crypto
manager. -/
theorem c8_start_payload_and_token
    (settings : ConnInitSettings) (streamid : Option String) (freshKey : Nat) :
    (∀ co, settings.crypto = some co →
      ∃ info, (start_hsv5_initiation settings streamid freshKey).1 =
          HandshakeVSInfo.V5 info ∧
        info.crypto_size = co.size ∧
        info.ext_km = some (SrtControlPacket.KeyManagerRequest
          (CryptoManager.new_random co freshKey).generate_km) ∧
        (start_hsv5_initiation settings streamid freshKey).2.cm =
          some (CryptoManager.new_random co freshKey)) ∧
    (settings.crypto = none →
      ∃ info, (start_hsv5_initiation settings streamid freshKey).1 =
          HandshakeVSInfo.V5 info ∧
        info.crypto_size = 0 ∧ info.ext_km = none ∧
        (start_hsv5_initiation settings streamid freshKey).2.cm = none) := by
  constructor
  · intro co hco
    refine ⟨⟨co.size,
        some (SrtControlPacket.HandshakeRequest
          ⟨SrtVersion.CURRENT, SrtShakeFlags.SUPPORTED,
            settings.send_latency, settings.recv_latency⟩),
        some (SrtControlPacket.KeyManagerRequest
          (CryptoManager.new_random co freshKey).generate_km),
        streamid⟩, ?_, rfl, rfl, ?_⟩ <;>
      simp [start_hsv5_initiation, hco]
  · intro hco
    refine ⟨⟨0,
        some (SrtControlPacket.HandshakeRequest
          ⟨SrtVersion.CURRENT, SrtShakeFlags.SUPPORTED,
            settings.send_latency, settings.recv_latency⟩),
        none, streamid⟩, ?_, rfl, rfl, ?_⟩ <;>
      simp [start_hsv5_initiation, hco]

/-- Witness for C8 at a concrete input with crypto configured. -/
theorem c8_start_payload_and_token_witness :
    ∃ info, (start_hsv5_initiation ⟨1, 2, 3, 4, some ⟨16, "pw"⟩⟩ (some "s") 9).1 =
        HandshakeVSInfo.V5 info ∧
      info.crypto_size = 16 ∧
      info.ext_km = some (SrtControlPacket.KeyManagerRequest
        (CryptoManager.new_random ⟨16, "pw"⟩ 9).generate_km) ∧
      (start_hsv5_initiation ⟨1, 2, 3, 4, some ⟨16, "pw"⟩⟩ (some "s") 9).2.cm =
        some (CryptoManager.new_random ⟨16, "pw"⟩ 9) :=
  (c8_start_payload_and_token ⟨1, 2, 3, 4, some ⟨16, "pw"⟩⟩ (some "s") 9).1 ⟨16, "pw"⟩ rfl

/-- The acceptor's crypto override leaves the configured latencies (and the
other non-crypto fields) of the settings unchanged. -/
theorem apply_accept_params_latency (s : ConnInitSettings) (ap : AcceptParameters) :
    (apply_accept_params s ap).send_latency = s.send_latency ∧
    (apply_accept_params s ap).recv_latency = s.recv_latency := by
  cases ap with
  | mk co => cases co <;> simp [apply_accept_params]

/-- A negotiated crypto manager exists exactly when the inbound key-exchange
request exists (and exactly when local crypto is configured): the two good
arms of the crypto match are (both) and (neither). -/
theorem hsv5_crypto_negotiation_ok_manager (crypto : Option CryptoOptions)
    (ext_km : Option SrtControlPacket) (cs : Nat) (cm : Option CryptoManager)
    (h : hsv5_crypto_negotiation crypto ext_km cs = Except.ok (Sum.inr cm)) :
    cm.isSome = ext_km.isSome ∧ cm.isSome = crypto.isSome := by
  cases crypto with
  | none =>
    cases ext_km with
    | none =>
      simp [hsv5_crypto_negotiation] at h
      simp [← h]
    | some p => simp [hsv5_crypto_negotiation] at h
  | some co =>
    cases ext_km with
    | none => simp [hsv5_crypto_negotiation] at h
    | some p =>
      cases p with
      | KeyManagerRequest km =>
        by_cases hsz : co.size = cs
        · rw [hsv5_crypto_negotiation] at h
          simp only [hsz, ne_eq, not_true_eq_false, if_neg, ite_false] at h
          cases hkm : CryptoManager.new_from_kmreq co km with
          | ok cm2 =>
            rw [hkm] at h
            simp at h
            simp [← h]
          | error rr =>
            rw [hkm] at h
            simp at h
        · rw [hsv5_crypto_negotiation] at h
          simp [hsz] at h
      | HandshakeRequest hs => simp [hsv5_crypto_negotiation] at h
      | HandshakeResponse hs => simp [hsv5_crypto_negotiation] at h
      | KeyManagerResponse km => simp [hsv5_crypto_negotiation] at h

/-- The four asymmetric/mismatched crypto combinations make the crypto
negotiation terminate abnormally. -/
theorem hsv5_crypto_negotiation_error (crypto : Option CryptoOptions)
    (ext_km : Option SrtControlPacket) (cs : Nat)
    (hbad :
      (crypto.isSome ∧ ext_km = none) ∨
      (crypto = none ∧ ext_km.isSome) ∨
      (∃ co p, crypto = some co ∧ ext_km = some p ∧
        ∀ km, p ≠ SrtControlPacket.KeyManagerRequest km) ∨
      (∃ co km, crypto = some co ∧
        ext_km = some (SrtControlPacket.KeyManagerRequest km) ∧ co.size ≠ cs)) :
    ∃ e, hsv5_crypto_negotiation crypto ext_km cs = Except.error e := by
  rcases hbad with ⟨hsome, hkm⟩ | ⟨hnone, hkm⟩ | ⟨co, p, hco, hkm, hshape⟩ |
    ⟨co, km, hco, hkm, hsz⟩
  · obtain ⟨co, hco⟩ := Option.isSome_iff_exists.mp hsome
    exact ⟨"Crypto mismatch", by simp [hsv5_crypto_negotiation, hco, hkm]⟩
  · obtain ⟨p, hp⟩ := Option.isSome_iff_exists.mp hkm
    exact ⟨"Crypto mismatch", by simp [hsv5_crypto_negotiation, hnone, hp]⟩
  · cases p with
    | KeyManagerRequest km => exact absurd rfl (hshape km)
    | HandshakeRequest hs =>
      exact ⟨"Expected kmreq", by simp [hsv5_crypto_negotiation, hco, hkm]⟩
    | HandshakeResponse hs =>
      exact ⟨"Expected kmreq", by simp [hsv5_crypto_negotiation, hco, hkm]⟩
    | KeyManagerResponse km2 =>
      exact ⟨"Expected kmreq", by simp [hsv5_crypto_negotiation, hco, hkm]⟩
  · exact ⟨"Key size mismatch", by simp [hsv5_crypto_negotiation, hco, hkm, hsz]⟩

/-- Inversion for the responder's accept: an `Accept` outcome forces a
version-5 message that passed access control with a handshake-request
sub-packet, returns the acceptor-updated settings, computes both negotiated
latencies as cross-wise maxima, and carries a crypto manager exactly when the
inbound message carried a key-exchange request. -/
theorem gen_hsv5_accept_inv (settings : ConnInitSettings) (pkt : HandshakeControlInfo)
    (from_ : SocketAddr) (acceptor : StreamAcceptor) (now : Nat)
    (s' : ConnInitSettings) (out : HandshakeVSInfo) (conn : ConnectionSettings)
    (h : gen_hsv5_response settings pkt from_ acceptor now =
      Except.ok (s', GenHsv5Result.Accept out conn)) :
    ∃ inc hs ap, pkt.info = HandshakeVSInfo.V5 inc ∧
      acceptor inc.sid from_ = Except.ok ap ∧
      s' = apply_accept_params settings ap ∧
      inc.ext_hs = some (SrtControlPacket.HandshakeRequest hs) ∧
      conn.send_tsbpd_latency = max settings.send_latency hs.recv_latency ∧
      conn.recv_tsbpd_latency = max settings.recv_latency hs.send_latency ∧
      conn.crypto_manager.isSome = inc.ext_km.isSome := by
  cases hinfo : pkt.info with
  | V4 => simp [gen_hsv5_response, hinfo] at h
  | V5 inc =>
    cases hacc : acceptor inc.sid from_ with
    | error rr => simp [gen_hsv5_response, hinfo, hacc] at h
    | ok ap =>
      cases hext : inc.ext_hs with
      | none => simp [gen_hsv5_response, hinfo, hacc, hext] at h
      | some p =>
        cases p with
        | HandshakeResponse hs => simp [gen_hsv5_response, hinfo, hacc, hext] at h
        | KeyManagerRequest km => simp [gen_hsv5_response, hinfo, hacc, hext] at h
        | KeyManagerResponse km => simp [gen_hsv5_response, hinfo, hacc, hext] at h
        | HandshakeRequest hs =>
          cases hcm : hsv5_crypto_negotiation (apply_accept_params settings ap).crypto
              inc.ext_km inc.crypto_size with
          | error e => simp [gen_hsv5_response, hinfo, hacc, hext, hcm, Except.bind] at h
          | ok v =>
            cases v with
            | inl rr => simp [gen_hsv5_response, hinfo, hacc, hext, hcm, Except.bind] at h
            | inr cm =>
              simp [gen_hsv5_response, hinfo, hacc, hext, hcm, Except.bind] at h
              obtain ⟨rfl, rfl, rfl⟩ := h
              obtain ⟨hsnd, hrcv⟩ := apply_accept_params_latency settings ap
              obtain ⟨hkm1, hkm2⟩ :=
                hsv5_crypto_negotiation_ok_manager _ _ _ _ hcm
              refine ⟨inc, hs, ap, rfl, hacc, rfl, hext, ?_, ?_, ?_⟩
              · simp [hsnd]
              · simp [hrcv]
              · simpa using hkm1

/-- The initiator's outbound payload is version-5 and carries a key-exchange
request exactly when the pending-initiation token retains a crypto manager. -/
theorem start_hsv5_shape (settings : ConnInitSettings) (streamid : Option String)
    (freshKey : Nat) :
    ∃ info, (start_hsv5_initiation settings streamid freshKey).1 =
        HandshakeVSInfo.V5 info ∧
      info.ext_km.isSome = (start_hsv5_initiation settings streamid freshKey).2.cm.isSome := by
  cases hco : settings.crypto with
  | some co =>
    refine ⟨⟨co.size,
        some (SrtControlPacket.HandshakeRequest
          ⟨SrtVersion.CURRENT, SrtShakeFlags.SUPPORTED,
            settings.send_latency, settings.recv_latency⟩),
        some (SrtControlPacket.KeyManagerRequest
          (CryptoManager.new_random co freshKey).generate_km),
        streamid⟩, ?_, ?_⟩ <;> simp [start_hsv5_initiation, hco]
  | none =>
    refine ⟨⟨0,
        some (SrtControlPacket.HandshakeRequest
          ⟨SrtVersion.CURRENT, SrtShakeFlags.SUPPORTED,
            settings.send_latency, settings.recv_latency⟩),
        none, streamid⟩, ?_, ?_⟩ <;> simp [start_hsv5_initiation, hco]

/-- C1: in a matched run — the responder accepting the initiator's outbound
payload, the initiator finishing on the responder's outbound payload with the
corresponding token — the responder's finalized settings carry a crypto
manager exactly when the initiator's do. -/
theorem c1_crypto_presence_symmetry
    (iSettings rSettings : ConnInitSettings) (sid : Option String) (freshKey : Nat)
    (acceptor : StreamAcceptor) (isid rsid : SocketId) (iseq rseq : SeqNumber)
    (fromR fromI : SocketAddr) (nowR nowI : Nat)
    (s' : ConnInitSettings) (out : HandshakeVSInfo) (rConn iConn : ConnectionSettings)
    (hgen : gen_hsv5_response rSettings
        ⟨(start_hsv5_initiation iSettings sid freshKey).1, isid, iseq⟩ fromR acceptor nowR =
      Except.ok (s', GenHsv5Result.Accept out rConn))
    (hfin : (start_hsv5_initiation iSettings sid freshKey).2.finish_hsv5_initiation
        ⟨out, rsid, rseq⟩ fromI nowI = Except.ok iConn) :
    rConn.crypto_manager.isSome = iConn.crypto_manager.isSome := by
  obtain ⟨inc, hs, ap, hinfo, -, -, -, -, -, hcmr⟩ :=
    gen_hsv5_accept_inv _ _ _ _ _ _ _ _ hgen
  obtain ⟨sinfo, hpl, hsym⟩ := start_hsv5_shape iSettings sid freshKey
  have hinfo2 : (start_hsv5_initiation iSettings sid freshKey).1 = HandshakeVSInfo.V5 inc :=
    hinfo
  rw [hpl] at hinfo2
  injection hinfo2 with hinc
  obtain ⟨iinc, ihs, -, -, hiconn⟩ := finish_hsv5_ok_inv _ _ _ _ _ hfin
  have hicm : iConn.crypto_manager =
      (start_hsv5_initiation iSettings sid freshKey).2.cm := by
    rw [hiconn]
  rw [hcmr, ← hinc, hsym, ← hicm]

/-- C2: every finalized `ConnectionSettings` — responder accept or initiator
finish — computes `send_tsbpd_latency` as the maximum of the local configured
send latency and the peer's advertised receive latency, and
`recv_tsbpd_latency` as the maximum of the local configured receive latency
and the peer's advertised send latency; each negotiated latency is at least
both of its inputs. -/
theorem c2_negotiated_latency_is_max :
    (∀ settings pkt from_ acceptor now s' out conn inc hs,
      pkt.info = HandshakeVSInfo.V5 inc →
      inc.ext_hs = some (SrtControlPacket.HandshakeRequest hs) →
      gen_hsv5_response settings pkt from_ acceptor now =
        Except.ok (s', GenHsv5Result.Accept out conn) →
      conn.send_tsbpd_latency = max settings.send_latency hs.recv_latency ∧
      conn.recv_tsbpd_latency = max settings.recv_latency hs.send_latency ∧
      settings.send_latency ≤ conn.send_tsbpd_latency ∧
      hs.recv_latency ≤ conn.send_tsbpd_latency ∧
      settings.recv_latency ≤ conn.recv_tsbpd_latency ∧
      hs.send_latency ≤ conn.recv_tsbpd_latency) ∧
    (∀ (self : StartedInitiator) response from_ now conn inc hs,
      response.info = HandshakeVSInfo.V5 inc →
      inc.ext_hs = some (SrtControlPacket.HandshakeResponse hs) →
      self.finish_hsv5_initiation response from_ now = Except.ok conn →
      conn.send_tsbpd_latency = max self.settings.send_latency hs.recv_latency ∧
      conn.recv_tsbpd_latency = max self.settings.recv_latency hs.send_latency ∧
      self.settings.send_latency ≤ conn.send_tsbpd_latency ∧
      hs.recv_latency ≤ conn.send_tsbpd_latency ∧
      self.settings.recv_latency ≤ conn.recv_tsbpd_latency ∧
      hs.send_latency ≤ conn.recv_tsbpd_latency) := by
  constructor
  · intro settings pkt from_ acceptor now s' out conn inc hs hinfo hext h
    obtain ⟨inc2, hs2, ap, hinfo2, -, -, hext2, hsnd, hrcv, -⟩ :=
      gen_hsv5_accept_inv _ _ _ _ _ _ _ _ h
    rw [hinfo] at hinfo2
    injection hinfo2 with hinc
    subst hinc
    rw [hext] at hext2
    injection hext2 with hhs
    injection hhs with hhs2
    subst hhs2
    exact ⟨hsnd, hrcv,
      hsnd ▸ le_max_left _ _, hsnd ▸ le_max_right _ _,
      hrcv ▸ le_max_left _ _, hrcv ▸ le_max_right _ _⟩
  · intro self response from_ now conn inc hs hinfo hext h
    obtain ⟨inc2, hs2, hinfo2, hext2, hconn⟩ := finish_hsv5_ok_inv _ _ _ _ _ h
    rw [hinfo] at hinfo2
    injection hinfo2 with hinc
    subst hinc
    rw [hext] at hext2
    injection hext2 with hhs
    injection hhs with hhs2
    subst hhs2
    subst hconn
    exact ⟨rfl, rfl,
      le_max_left _ _, le_max_right _ _, le_max_left _ _, le_max_right _ _⟩

/-- C3: after acceptance and with the handshake-request sub-packet present,
every asymmetric crypto combination — local crypto (as possibly overridden by
the acceptor) without an inbound key-exchange request, an inbound request
without local crypto, a wrong-variant key-exchange sub-packet alongside local
crypto — and every key-size mismatch terminates `gen_hsv5_response`
abnormally instead of returning one of the three defined results. -/
theorem c3_crypto_mismatch_aborts
    (settings : ConnInitSettings) (pkt : HandshakeControlInfo) (from_ : SocketAddr)
    (acceptor : StreamAcceptor) (now : Nat) (inc : HSV5Info) (ap : AcceptParameters)
    (hs : SrtHandshake)
    (hinfo : pkt.info = HandshakeVSInfo.V5 inc)
    (hacc : acceptor inc.sid from_ = Except.ok ap)
    (hext : inc.ext_hs = some (SrtControlPacket.HandshakeRequest hs))
    (hbad :
      ((apply_accept_params settings ap).crypto.isSome ∧ inc.ext_km = none) ∨
      ((apply_accept_params settings ap).crypto = none ∧ inc.ext_km.isSome) ∨
      (∃ co p, (apply_accept_params settings ap).crypto = some co ∧
        inc.ext_km = some p ∧ ∀ km, p ≠ SrtControlPacket.KeyManagerRequest km) ∨
      (∃ co km, (apply_accept_params settings ap).crypto = some co ∧
        inc.ext_km = some (SrtControlPacket.KeyManagerRequest km) ∧
        co.size ≠ inc.crypto_size)) :
    ∃ e, gen_hsv5_response settings pkt from_ acceptor now = Except.error e := by
  obtain ⟨e, hcm⟩ := hsv5_crypto_negotiation_error
    (apply_accept_params settings ap).crypto inc.ext_km inc.crypto_size hbad
  exact ⟨e, by simp [gen_hsv5_response, hinfo, hacc, hext, hcm, Except.bind]⟩

/-- Witness for C1: a full matched run with crypto on both sides. -/
theorem c1_crypto_presence_symmetry_witness :
    gen_hsv5_response ⟨20, 200, 50, 90, some ⟨16, "pw"⟩⟩
        ⟨(start_hsv5_initiation ⟨10, 100, 120, 80, some ⟨16, "pw"⟩⟩ (some "s") 7).1,
          11, 12⟩ 99 (fun _ _ => Except.ok ⟨none⟩) 3 =
      Except.ok ((⟨20, 200, 50, 90, some ⟨16, "pw"⟩⟩ : ConnInitSettings),
        GenHsv5Result.Accept
          (HandshakeVSInfo.V5 ⟨16,
            some (SrtControlPacket.HandshakeResponse ⟨⟨1, 4, 2⟩, 63, 50, 90⟩),
            some (SrtControlPacket.KeyManagerResponse ⟨"pw", 7⟩), some "s"⟩)
          ⟨99, 11, 20, 3, 200, 12, 1500, 8192, 80, 120,
            some ⟨⟨16, "pw"⟩, 7⟩, some "s"⟩) ∧
    (start_hsv5_initiation ⟨10, 100, 120, 80, some ⟨16, "pw"⟩⟩
        (some "s") 7).2.finish_hsv5_initiation
        ⟨HandshakeVSInfo.V5 ⟨16,
          some (SrtControlPacket.HandshakeResponse ⟨⟨1, 4, 2⟩, 63, 50, 90⟩),
          some (SrtControlPacket.KeyManagerResponse ⟨"pw", 7⟩), some "s"⟩, 21, 22⟩ 98 4 =
      Except.ok ⟨98, 21, 10, 4, 100, 22, 1500, 8192, 120, 80,
        some ⟨⟨16, "pw"⟩, 7⟩, some "s"⟩ ∧
    (⟨99, 11, 20, 3, 200, 12, 1500, 8192, 80, 120, some ⟨⟨16, "pw"⟩, 7⟩,
        some "s"⟩ : ConnectionSettings).crypto_manager.isSome =
      (⟨98, 21, 10, 4, 100, 22, 1500, 8192, 120, 80, some ⟨⟨16, "pw"⟩, 7⟩,
        some "s"⟩ : ConnectionSettings).crypto_manager.isSome :=
  ⟨rfl, rfl,
    c1_crypto_presence_symmetry ⟨10, 100, 120, 80, some ⟨16, "pw"⟩⟩
      ⟨20, 200, 50, 90, some ⟨16, "pw"⟩⟩ (some "s") 7
      (fun _ _ => Except.ok ⟨none⟩) 11 21 12 22 99 98 3 4
      ⟨20, 200, 50, 90, some ⟨16, "pw"⟩⟩
      (HandshakeVSInfo.V5 ⟨16,
        some (SrtControlPacket.HandshakeResponse ⟨⟨1, 4, 2⟩, 63, 50, 90⟩),
        some (SrtControlPacket.KeyManagerResponse ⟨"pw", 7⟩), some "s"⟩)
      ⟨99, 11, 20, 3, 200, 12, 1500, 8192, 80, 120, some ⟨⟨16, "pw"⟩, 7⟩, some "s"⟩
      ⟨98, 21, 10, 4, 100, 22, 1500, 8192, 120, 80, some ⟨⟨16, "pw"⟩, 7⟩, some "s"⟩
      rfl rfl⟩

/-- Witness for C2: a concrete accepted run without crypto. -/
theorem c2_negotiated_latency_is_max_witness :
    (⟨HandshakeVSInfo.V5 ⟨0, some (SrtControlPacket.HandshakeRequest
        ⟨⟨1, 4, 2⟩, 63, 120, 80⟩), none, none⟩, 5, 6⟩ : HandshakeControlInfo).info =
      HandshakeVSInfo.V5 ⟨0, some (SrtControlPacket.HandshakeRequest
        ⟨⟨1, 4, 2⟩, 63, 120, 80⟩), none, none⟩ ∧
    gen_hsv5_response ⟨1, 2, 50, 90, none⟩
        ⟨HandshakeVSInfo.V5 ⟨0, some (SrtControlPacket.HandshakeRequest
          ⟨⟨1, 4, 2⟩, 63, 120, 80⟩), none, none⟩, 5, 6⟩ 7
        (fun _ _ => Except.ok ⟨none⟩) 0 =
      Except.ok ((⟨1, 2, 50, 90, none⟩ : ConnInitSettings),
        GenHsv5Result.Accept
          (HandshakeVSInfo.V5 ⟨0, some (SrtControlPacket.HandshakeResponse
            ⟨⟨1, 4, 2⟩, 63, 50, 90⟩), none, none⟩)
          ⟨7, 5, 1, 0, 2, 6, 1500, 8192, 80, 120, none, none⟩) ∧
    (⟨7, 5, 1, 0, 2, 6, 1500, 8192, 80, 120, none,
        none⟩ : ConnectionSettings).send_tsbpd_latency = max 50 80 ∧
    (⟨7, 5, 1, 0, 2, 6, 1500, 8192, 80, 120, none,
        none⟩ : ConnectionSettings).recv_tsbpd_latency = max 90 120 :=
  ⟨rfl, rfl,
    (c2_negotiated_latency_is_max.1 ⟨1, 2, 50, 90, none⟩
      ⟨HandshakeVSInfo.V5 ⟨0, some (SrtControlPacket.HandshakeRequest
        ⟨⟨1, 4, 2⟩, 63, 120, 80⟩), none, none⟩, 5, 6⟩ 7
      (fun _ _ => Except.ok ⟨none⟩) 0 ⟨1, 2, 50, 90, none⟩
      (HandshakeVSInfo.V5 ⟨0, some (SrtControlPacket.HandshakeResponse
        ⟨⟨1, 4, 2⟩, 63, 50, 90⟩), none, none⟩)
      ⟨7, 5, 1, 0, 2, 6, 1500, 8192, 80, 120, none, none⟩
      ⟨0, some (SrtControlPacket.HandshakeRequest ⟨⟨1, 4, 2⟩, 63, 120, 80⟩), none, none⟩
      ⟨⟨1, 4, 2⟩, 63, 120, 80⟩ rfl rfl rfl).1,
    (c2_negotiated_latency_is_max.1 ⟨1, 2, 50, 90, none⟩
      ⟨HandshakeVSInfo.V5 ⟨0, some (SrtControlPacket.HandshakeRequest
        ⟨⟨1, 4, 2⟩, 63, 120, 80⟩), none, none⟩, 5, 6⟩ 7
      (fun _ _ => Except.ok ⟨none⟩) 0 ⟨1, 2, 50, 90, none⟩
      (HandshakeVSInfo.V5 ⟨0, some (SrtControlPacket.HandshakeResponse
        ⟨⟨1, 4, 2⟩, 63, 50, 90⟩), none, none⟩)
      ⟨7, 5, 1, 0, 2, 6, 1500, 8192, 80, 120, none, none⟩
      ⟨0, some (SrtControlPacket.HandshakeRequest ⟨⟨1, 4, 2⟩, 63, 120, 80⟩), none, none⟩
      ⟨⟨1, 4, 2⟩, 63, 120, 80⟩ rfl rfl rfl).2.1⟩

/-- Witness for C3: local crypto configured, no inbound key-exchange request. -/
theorem c3_crypto_mismatch_aborts_witness :
    (⟨HandshakeVSInfo.V5 ⟨16, some (SrtControlPacket.HandshakeRequest
        ⟨⟨1, 4, 2⟩, 63, 9, 9⟩), none, some "x"⟩, 5, 6⟩ : HandshakeControlInfo).info =
      HandshakeVSInfo.V5 ⟨16, some (SrtControlPacket.HandshakeRequest
        ⟨⟨1, 4, 2⟩, 63, 9, 9⟩), none, some "x"⟩ ∧
    (apply_accept_params ⟨1, 2, 3, 4, some ⟨16, "pw"⟩⟩ ⟨none⟩).crypto.isSome ∧
    (∃ e, gen_hsv5_response ⟨1, 2, 3, 4, some ⟨16, "pw"⟩⟩
        ⟨HandshakeVSInfo.V5 ⟨16, some (SrtControlPacket.HandshakeRequest
          ⟨⟨1, 4, 2⟩, 63, 9, 9⟩), none, some "x"⟩, 5, 6⟩ 7
        (fun _ _ => Except.ok ⟨none⟩) 0 = Except.error e) :=
  ⟨rfl, rfl,
    c3_crypto_mismatch_aborts ⟨1, 2, 3, 4, some ⟨16, "pw"⟩⟩
      ⟨HandshakeVSInfo.V5 ⟨16, some (SrtControlPacket.HandshakeRequest
        ⟨⟨1, 4, 2⟩, 63, 9, 9⟩), none, some "x"⟩, 5, 6⟩ 7
      (fun _ _ => Except.ok ⟨none⟩) 0
      ⟨16, some (SrtControlPacket.HandshakeRequest ⟨⟨1, 4, 2⟩, 63, 9, 9⟩), none, some "x"⟩
      ⟨none⟩ ⟨⟨1, 4, 2⟩, 63, 9, 9⟩ rfl rfl rfl (Or.inl ⟨rfl, rfl⟩)⟩
